import Mathlib

/-!
Verification of the Sinilink amplifier BLE integration.

This file embeds the state-manipulating core of
`custom_components/sinilink_amplifier/bluetooth.py`,
`custom_components/sinilink_amplifier/const.py` and
`custom_components/sinilink_amplifier/media_player.py` as pure Lean
functions.  I/O-performing transport calls (device lookup, connect,
start/stop notify, characteristic read/write) are modelled by explicit
outcome flags passed in environment records: a `...Raises` flag set means
the corresponding call raises an exception at that point of the control
flow; the embedded function then follows the Python `try/except` structure.
Session state (the fields of `SinilinkAmplifierBluetooth`) is threaded
explicitly.
-/

namespace Sinilink

/-- Input source name constants from `const.py`. -/
def INPUT_AUX : String := "aux"

/-- Input source name constant from `const.py`. -/
def INPUT_BLUETOOTH : String := "bt"

/-- Input source name constant from `const.py`. -/
def INPUT_SOUNDCARD : String := "sndcard"

/-- Input source name constant from `const.py`. -/
def INPUT_USB : String := "usb"

/-- The dict `INPUT_SOURCE_MAP` of `const.py`, as an association list. -/
def INPUT_SOURCE_MAP : List (Nat × String) :=
  [(0x16, INPUT_AUX), (0x14, INPUT_BLUETOOTH), (0x15, INPUT_SOUNDCARD), (0x04, INPUT_USB)]

/-- The dict `INPUT_CODE_MAP` of `const.py`, as an association list. -/
def INPUT_CODE_MAP : List (String × Nat) :=
  [(INPUT_AUX, 0x16), (INPUT_BLUETOOTH, 0x14), (INPUT_SOUNDCARD, 0x15), (INPUT_USB, 0x04)]

/-- The lookup `INPUT_SOURCE_MAP.get(input_code, "Unknown")` performed in
`media_player.py` (`async_on_bluetooth_notification`, line 156). -/
def input_source_for (code : Nat) : String :=
  (INPUT_SOURCE_MAP.lookup code).getD "Unknown"

/-- The BLE client handle (`BleakClient`): its connection state, plus whether
notifications have been subscribed on it via `start_notify`. -/
structure Client where
  is_connected : Bool
  notifying : Bool
deriving DecidableEq

/-- The mutable state of `SinilinkAmplifierBluetooth.__init__`:
`_client`, `_volume_level`, `_input_code`, `_is_connecting`, and whether a
`_notification_callback` has been registered. -/
structure Session where
  client : Option Client
  volume_level : Option Nat
  input_code : Option Nat
  is_connecting : Bool
  callback_set : Bool
deriving DecidableEq

/-- The truthiness test `self._client and self._client.is_connected`
(used by `_ensure_connected`, `disconnect` and the `is_connected` property). -/
def clientConnected (s : Session) : Bool :=
  match s.client with
  | some c => c.is_connected
  | none => false

/-- A fresh session, as built by `__init__` (all fields `None`/`False`). -/
def freshSession : Session :=
  { client := none, volume_level := none, input_code := none,
    is_connecting := false, callback_set := false }

/-- Outcomes of the transport calls made during a connect attempt:
whether `async_ble_device_from_address` returns a device, and whether
`client.connect`, `start_notify` and the initial `read_gatt_char` raise. -/
structure ConnectEnv where
  deviceFound : Bool
  connectRaises : Bool
  startNotifyRaises : Bool
  initialReadRaises : Bool
deriving DecidableEq

/-- A connect attempt in which every transport call succeeds. -/
def goodConnectEnv : ConnectEnv :=
  { deviceFound := true, connectRaises := false,
    startNotifyRaises := false, initialReadRaises := false }

/-- Embedding of `_start_notifications` (bluetooth.py lines 112-125).
If the client is absent or not connected it logs and returns.  Otherwise it
calls `start_notify` then `read_gatt_char`; both sit in one `try` whose
`except` only logs, so a `start_notify` failure leaves `notifying` unset and
a failure of the initial read after a successful `start_notify` leaves
`notifying` set.  No exception escapes. -/
def start_notifications (env : ConnectEnv) (s : Session) : Session :=
  if ¬ clientConnected s then s
  else if env.startNotifyRaises then s
  else
    -- start_notify succeeded; the initial read may still raise but the
    -- except clause only logs, leaving the session state unchanged.
    { s with client := s.client.map (fun c => { c with notifying := true }) }

/-- Embedding of `_ensure_connected` (bluetooth.py lines 41-91), sequential
(the body runs under `self._lock`).  The `_is_connecting` wait branch sleeps
and re-samples the connection state; with no concurrent writer the state is
unchanged, so the re-sample sees the same (not-connected) state. -/
def ensure_connected (env : ConnectEnv) (s : Session) : Bool × Session :=
  if clientConnected s then (true, s)
  else if s.is_connecting then
    -- sleep(0.5), then re-check `self._client and self._client.is_connected`
    (clientConnected s, s)
  else if ¬ env.deviceFound then
    -- `async_ble_device_from_address` returned None: log a warning and
    -- return False.  Note: no cleanup of `self._client` happens here.
    (false, s)
  else
    -- stale not-connected client, if any, is disconnected and dropped
    let s1 := if s.client.isSome then { s with client := none } else s
    let s2 := if s1.client.isNone
      then { s1 with client := some { is_connected := false, notifying := false } }
      else s1
    if env.connectRaises then
      -- except: attempt client cleanup (errors logged) and clear `_client`
      (false, { s2 with client := none })
    else
      let s3 := { s2 with client := s2.client.map (fun c => { c with is_connected := true }) }
      (true, start_notifications env s3)

/-- Outcomes of the transport calls made during `disconnect`:
whether `stop_notify` raises, and whether `client.disconnect` raises. -/
structure DisconnectEnv where
  stopNotifyRaises : Bool
  disconnectRaises : Bool
deriving DecidableEq

/-- Embedding of `_stop_notifications` (bluetooth.py lines 127-135):
no-op unless connected; a `stop_notify` failure is caught and logged. -/
def stop_notifications (env : DisconnectEnv) (s : Session) : Session :=
  if ¬ clientConnected s then s
  else if env.stopNotifyRaises then s
  else { s with client := s.client.map (fun c => { c with notifying := false }) }

/-- Embedding of `disconnect` (bluetooth.py lines 93-105): if connected,
stop notifications and disconnect the client (exceptions caught and logged),
then unconditionally clear `_client`, `_volume_level` and `_input_code`. -/
def disconnect (env : DisconnectEnv) (s : Session) : Session :=
  let s1 :=
    if clientConnected s then
      let s2 := stop_notifications env s
      if env.disconnectRaises then s2
      else { s2 with client := s2.client.map (fun c => { c with is_connected := false }) }
    else s
  { s1 with client := none, volume_level := none, input_code := none }

/-- Result of `_handle_notification`: the updated session, and the argument
pair the registered callback was invoked with (`none` when it was not). -/
structure NotifyResult where
  session : Session
  callbackArgs : Option (Option Nat × Option Nat)
deriving DecidableEq

/-- Embedding of `_handle_notification` (bluetooth.py lines 137-164):
volume is read from `data[5]` when `len(data) > 5`, input from `data[4]`
when `len(data) > 4`; each stored field is assigned only when it differs
from the decoded byte; the callback fires when it is registered and at
least one of the decoded fields is present. -/
def handle_notification (s : Session) (data : List Nat) : NotifyResult :=
  let new_volume : Option Nat := if h : 5 < data.length then some (data.get ⟨5, h⟩) else none
  let s1 :=
    match new_volume with
    | some nv => if s.volume_level ≠ some nv then { s with volume_level := some nv } else s
    | none => s
  let new_input : Option Nat := if h : 4 < data.length then some (data.get ⟨4, h⟩) else none
  let s2 :=
    match new_input with
    | some ni => if s1.input_code ≠ some ni then { s1 with input_code := some ni } else s1
    | none => s1
  if s.callback_set && (new_volume.isSome || new_input.isSome) then
    { session := s2, callbackArgs := some (s2.volume_level, s2.input_code) }
  else
    { session := s2, callbackArgs := none }

/-- The Volume-Set frame built by `set_volume` (bluetooth.py lines 178-180):
`bytearray([0x7e, 0x0f, 0x1d, volume] + ten zero bytes)` with
`sum(data) & 0xFF` appended. -/
def volumeFrame (v : ℤ) : List Nat :=
  let base : List Nat :=
    [0x7e, 0x0f, 0x1d, v.toNat, 0x00, 0x00, 0x00, 0x00, 0x00, 0x00, 0x00, 0x00, 0x00, 0x00]
  base ++ [base.sum % 256]

/-- Result of a command method: its boolean return, the session afterwards,
whether `_ensure_connected` was reached, and the frames written to the
write characteristic. -/
structure CmdOutcome where
  ok : Bool
  session : Session
  connectAttempted : Bool
  written : List (List Nat)
deriving DecidableEq

/-- Embedding of `set_volume` (bluetooth.py lines 167-188): range check
first (out of range logs an error and returns `False` before any connection
or write); then `_ensure_connected`; then, under the lock, the frame is
built and written (`write_gatt_char` may raise; the except logs and returns
`False`). -/
def set_volume (v : ℤ) (cenv : ConnectEnv) (writeRaises : Bool) (s : Session) : CmdOutcome :=
  if ¬ (1 ≤ v ∧ v ≤ 31) then
    { ok := false, session := s, connectAttempted := false, written := [] }
  else
    let r := ensure_connected cenv s
    if ¬ r.1 then { ok := false, session := r.2, connectAttempted := true, written := [] }
    else if writeRaises then
      -- the frame was built but write_gatt_char raised; nothing was written
      { ok := false, session := r.2, connectAttempted := true, written := [] }
    else { ok := true, session := r.2, connectAttempted := true, written := [volumeFrame v] }

/-- Embedding of `get_volume` (bluetooth.py lines 190-206): `None` when
`_ensure_connected` fails; otherwise the status-triggering read and the
sleep run in a `try` whose `except` only logs a warning, and the stored
`_volume_level` is returned either way.  `readRaises` records whether the
read raised; it does not affect the session state or the return value. -/
def get_volume (cenv : ConnectEnv) (readRaises : Bool) (s : Session) : Option Nat × Session :=
  let r := ensure_connected cenv s
  if ¬ r.1 then (none, r.2)
  else (r.2.volume_level, r.2)

/-- Embedding of `get_input` (bluetooth.py lines 208-224), identical in
shape to `get_volume` but returning the stored `_input_code`. -/
def get_input (cenv : ConnectEnv) (readRaises : Bool) (s : Session) : Option Nat × Session :=
  let r := ensure_connected cenv s
  if ¬ r.1 then (none, r.2)
  else (r.2.input_code, r.2)

/-- The device volume computed by `async_set_volume_level`
(media_player.py line 189): `max(1, min(31, round(volume * 31)))`. -/
def amp_volume (volume : ℚ) : ℤ := max 1 (min 31 (round (volume * 31)))

/-- A session with a live, notifying connection and both snapshot fields
populated (as after a successful connect and one status notification). -/
def connectedSession : Session :=
  { client := some { is_connected := true, notifying := true },
    volume_level := some 7, input_code := some 0x14,
    is_connecting := false, callback_set := true }

/-- The enumerated set of device input codes: the keys of `INPUT_SOURCE_MAP`. -/
def enumeratedCodes : List Nat := INPUT_SOURCE_MAP.map Prod.fst

/-- Helper: `ensure_connected` never touches the stored snapshot fields
`_volume_level` and `_input_code`; every branch only manipulates `_client`. -/
theorem ensure_connected_preserves_snapshot (env : ConnectEnv) (s : Session) :
    (ensure_connected env s).2.volume_level = s.volume_level
    ∧ (ensure_connected env s).2.input_code = s.input_code := by
  unfold ensure_connected start_notifications
  split_ifs <;> simp_all [clientConnected]

/-- C1: for every volume `v` in `[1, 31]`, a successful `set_volume v` writes
exactly one frame, namely the 15-byte Volume-Set frame laid out as
`7E 0F 1D v` followed by ten `0x00` bytes, whose last byte equals the sum of
the preceding 14 bytes mod 256. -/
theorem C1_volume_set_frame (v : ℤ) (cenv : ConnectEnv) (w : Bool) (s : Session)
    (h1 : 1 ≤ v) (h2 : v ≤ 31)
    (hok : (set_volume v cenv w s).ok = true) :
    (set_volume v cenv w s).written = [volumeFrame v]
    ∧ (volumeFrame v).length = 15
    ∧ (volumeFrame v).take 4 = [0x7e, 0x0f, 0x1d, v.toNat]
    ∧ ((volumeFrame v).drop 4).take 10 = List.replicate 10 0x00
    ∧ (volumeFrame v).getLast? = some (((volumeFrame v).take 14).sum % 256) := by
  refine ⟨?_, rfl, rfl, rfl, rfl⟩
  simp only [set_volume] at hok ⊢
  split_ifs at hok ⊢
  simp_all

/-- Witness for C1 at `v = 20` with every transport call succeeding. -/
theorem C1_volume_set_frame_witness :
    (set_volume 20 goodConnectEnv false freshSession).written = [volumeFrame 20]
    ∧ (volumeFrame 20).length = 15 :=
  ⟨(C1_volume_set_frame 20 goodConnectEnv false freshSession (by decide) (by decide)
      (by decide)).1,
   (C1_volume_set_frame 20 goodConnectEnv false freshSession (by decide) (by decide)
      (by decide)).2.1⟩

/-- C5 counterexample: the Volume-Set frame for volume 20 does not end in
`0x98`; its checksum byte is `0xBE`. -/
theorem C5_checksum_counterexample :
    (volumeFrame 20).getLast? ≠ some 0x98
    ∧ (volumeFrame 20).getLast? = some 0xBE := by decide

/-- C5 (amended): the 15-byte Volume-Set frame written by `set_volume 20`
ends in the checksum byte `0xBE = (0x7E + 0x0F + 0x1D + 0x14) mod 256`. -/
theorem C5_checksum_value :
    (set_volume 20 goodConnectEnv false freshSession).written = [volumeFrame 20]
    ∧ (volumeFrame 20).getLast? = some ((0x7e + 0x0f + 0x1d + 0x14) % 256)
    ∧ (0x7e + 0x0f + 0x1d + 0x14) % 256 = 0xBE := by decide

/-- C6: for every volume outside `[1, 31]`, `set_volume` returns failure
before any connection attempt or write: the session is untouched, no
connect is attempted, and nothing (not even a partial frame) is written. -/
theorem C6_out_of_range_rejected (v : ℤ) (cenv : ConnectEnv) (w : Bool) (s : Session)
    (h : ¬ (1 ≤ v ∧ v ≤ 31)) :
    set_volume v cenv w s =
      { ok := false, session := s, connectAttempted := false, written := [] } := by
  simp only [set_volume, if_pos h]

/-- Witness for C6 at the out-of-range volume 0. -/
theorem C6_out_of_range_rejected_witness :
    set_volume 0 goodConnectEnv false freshSession =
      { ok := false, session := freshSession, connectAttempted := false, written := [] } :=
  C6_out_of_range_rejected 0 goodConnectEnv false freshSession (by decide)

/-- C7: on the enumerated code set (the keys of `INPUT_SOURCE_MAP`),
`INPUT_CODE_MAP` inverts the `INPUT_SOURCE_MAP` lookup used by
`async_on_bluetooth_notification`; every code outside that set maps to
`"Unknown"` (the lookup is a pure function, so repeated lookups agree),
and `"Unknown"` is distinct from every enumerated source name. -/
theorem C7_round_trip :
    (∀ c ∈ enumeratedCodes, INPUT_CODE_MAP.lookup (input_source_for c) = some c)
    ∧ (∀ c : Nat, c ∉ enumeratedCodes → input_source_for c = "Unknown")
    ∧ "Unknown" ∉ INPUT_SOURCE_MAP.map Prod.snd := by
  refine ⟨by decide, ?_, by decide⟩
  intro c hc
  simp only [enumeratedCodes, INPUT_SOURCE_MAP, List.map_cons, List.map_nil,
    List.mem_cons, List.not_mem_nil, or_false, not_or] at hc
  obtain ⟨h1, h2, h3, h4⟩ := hc
  have e1 : (c == 0x16) = false := by simp [h1]
  have e2 : (c == 0x14) = false := by simp [h2]
  have e3 : (c == 0x15) = false := by simp [h3]
  have e4 : (c == 0x04) = false := by simp [h4]
  simp [input_source_for, INPUT_SOURCE_MAP, List.lookup, e1, e2, e3, e4]

/-- Witness for C7: the round trip at code `0x16` and the `"Unknown"`
fallback at the unenumerated code `0xFF`. -/
theorem C7_round_trip_witness :
    INPUT_CODE_MAP.lookup (input_source_for 0x16) = some 0x16
    ∧ input_source_for 0xFF = "Unknown" :=
  ⟨C7_round_trip.1 0x16 (by decide), C7_round_trip.2.1 0xFF (by decide)⟩

/-- C4: the notification decoder reads volume from index 5 exactly when the
frame length exceeds 5 and input from index 4 exactly when the length
exceeds 4, leaving the corresponding stored field untouched otherwise; on a
frame of length at most 4 the whole session is untouched and no callback
fires.  `handle_notification` is a total function, so no input length can
make it raise. -/
theorem C4_decoder_field_positions (s : Session) (data : List Nat) :
    ((handle_notification s data).session.volume_level
        = if h : 5 < data.length then some (data.get ⟨5, h⟩) else s.volume_level)
    ∧ ((handle_notification s data).session.input_code
        = if h : 4 < data.length then some (data.get ⟨4, h⟩) else s.input_code)
    ∧ (data.length ≤ 4 →
        (handle_notification s data).session = s
        ∧ (handle_notification s data).callbackArgs = none) := by
  unfold handle_notification
  refine ⟨?_, ?_, ?_⟩
  · by_cases h5 : 5 < data.length
    · have h4 : 4 < data.length := by omega
      simp only [dif_pos h5, dif_pos h4]
      split_ifs <;> simp_all
    · by_cases h4 : 4 < data.length
      · simp only [dif_neg h5, dif_pos h4]
        split_ifs <;> simp_all
      · simp only [dif_neg h5, dif_neg h4]
        split_ifs <;> simp_all
  · by_cases h5 : 5 < data.length
    · have h4 : 4 < data.length := by omega
      simp only [dif_pos h5, dif_pos h4]
      split_ifs <;> simp_all
    · by_cases h4 : 4 < data.length
      · simp only [dif_neg h5, dif_pos h4]
        split_ifs <;> simp_all
      · simp only [dif_neg h5, dif_neg h4]
        split_ifs <;> simp_all
  · intro hlen
    have h5 : ¬ 5 < data.length := by omega
    have h4 : ¬ 4 < data.length := by omega
    simp only [dif_neg h5, dif_neg h4]
    simp

/-- Witness for C4 at a 3-byte frame: both fields absent, session
untouched, no callback. -/
theorem C4_decoder_field_positions_witness :
    (handle_notification connectedSession [0x01, 0x02, 0x03]).session = connectedSession
    ∧ (handle_notification connectedSession [0x01, 0x02, 0x03]).callbackArgs = none :=
  (C4_decoder_field_positions connectedSession [0x01, 0x02, 0x03]).2.2 (by decide)

/-- C2 counterexample: a notification carrying exactly the already-stored
volume and input changes no stored field, yet the registered callback is
still invoked — refuting the claim that the callback fires only when a
stored field changed. -/
theorem C2_callback_counterexample :
    (handle_notification connectedSession [0x00, 0x00, 0x00, 0x00, 0x14, 7]).session.volume_level
        = connectedSession.volume_level
    ∧ (handle_notification connectedSession [0x00, 0x00, 0x00, 0x00, 0x14, 7]).session.input_code
        = connectedSession.input_code
    ∧ (handle_notification connectedSession [0x00, 0x00, 0x00, 0x00, 0x14, 7]).callbackArgs.isSome
        = true := by decide

/-- C2 (amended): the handler updates only the stored fields present in the
frame, and it invokes the registered callback with the full current
`(volume, input)` pair exactly when a callback is registered and at least
one field is present in the frame (length > 4) — regardless of whether any
stored value actually changed. -/
theorem C2_callback_on_presence (s : Session) (data : List Nat) :
    ((handle_notification s data).callbackArgs.isSome = true
        ↔ (s.callback_set = true ∧ 4 < data.length))
    ∧ ((handle_notification s data).callbackArgs = none
        ∨ (handle_notification s data).callbackArgs
            = some ((handle_notification s data).session.volume_level,
                    (handle_notification s data).session.input_code)) := by
  constructor
  · unfold handle_notification
    by_cases h5 : 5 < data.length
    · have h4 : 4 < data.length := by omega
      simp only [dif_pos h5, dif_pos h4]
      cases hcb : s.callback_set <;> simp [hcb, h4]
    · by_cases h4 : 4 < data.length
      · simp only [dif_neg h5, dif_pos h4]
        cases hcb : s.callback_set <;> simp [hcb, h4]
      · simp only [dif_neg h5, dif_neg h4]
        cases hcb : s.callback_set <;> simp [hcb, h4]
  · unfold handle_notification
    by_cases h5 : 5 < data.length
    · have h4 : 4 < data.length := by omega
      simp only [dif_pos h5, dif_pos h4]
      cases hcb : s.callback_set <;> simp [hcb]
    · by_cases h4 : 4 < data.length
      · simp only [dif_neg h5, dif_pos h4]
        cases hcb : s.callback_set <;> simp [hcb]
      · simp only [dif_neg h5, dif_neg h4]
        cases hcb : s.callback_set <;> simp [hcb]

/-- Witness for C2 at a 6-byte frame with a registered callback: the
callback fires and carries the current snapshot pair. -/
theorem C2_callback_on_presence_witness :
    (handle_notification connectedSession [0x00, 0x00, 0x00, 0x00, 0x14, 9]).callbackArgs.isSome
        = true
    ∧ (handle_notification connectedSession [0x00, 0x00, 0x00, 0x00, 0x14, 9]).callbackArgs
        = some ((handle_notification connectedSession [0x00, 0x00, 0x00, 0x00, 0x14, 9]).session.volume_level,
                (handle_notification connectedSession [0x00, 0x00, 0x00, 0x00, 0x14, 9]).session.input_code) :=
  ⟨(C2_callback_on_presence connectedSession [0x00, 0x00, 0x00, 0x00, 0x14, 9]).1.mpr
      ⟨by decide, by decide⟩,
   (C2_callback_on_presence connectedSession [0x00, 0x00, 0x00, 0x00, 0x14, 9]).2.resolve_left
      (by decide)⟩

/-- C3 counterexample: with the device resolvable and the transport connect
succeeding but the notification subscribe raising, `_ensure_connected`
still returns success while the client is left with notifications
unsubscribed — refuting the claim that a subscribe failure is reported as a
failure with `_client` cleared. -/
theorem C3_connect_counterexample :
    (ensure_connected
        { deviceFound := true, connectRaises := false,
          startNotifyRaises := true, initialReadRaises := false }
        freshSession).1 = true
    ∧ ((ensure_connected
        { deviceFound := true, connectRaises := false,
          startNotifyRaises := true, initialReadRaises := false }
        freshSession).2.client.map Client.notifying) = some false := by decide

/-- C3 (amended): starting from a not-connected, not-mid-connect session:
a device-resolution failure returns failure with the session untouched (a
stale `_client` handle, if present, is retained, not cleared); a transport
connect error returns failure with `_client` cleared; but a
notification-subscribe error is swallowed inside `_start_notifications`, so
`_ensure_connected` returns success with a connected, non-notifying client. -/
theorem C3_connect_failure_modes (env : ConnectEnv) (s : Session)
    (hnc : clientConnected s = false) (hni : s.is_connecting = false) :
    (env.deviceFound = false → ensure_connected env s = (false, s))
    ∧ (env.deviceFound = true → env.connectRaises = true →
        (ensure_connected env s).1 = false ∧ (ensure_connected env s).2.client = none)
    ∧ (env.deviceFound = true → env.connectRaises = false → env.startNotifyRaises = true →
        (ensure_connected env s).1 = true
        ∧ (ensure_connected env s).2.client
            = some { is_connected := true, notifying := false }) := by
  obtain ⟨fd, cr, snr, irr⟩ := env
  refine ⟨?_, ?_, ?_⟩
  · intro hd
    subst hd
    simp_all [ensure_connected, clientConnected]
  · intro hd hcr
    subst hd; subst hcr
    cases hcl : s.client <;> simp_all [ensure_connected, clientConnected]
  · intro hd hcr hsn
    subst hd; subst hcr; subst hsn
    cases hcl : s.client <;>
      simp_all [ensure_connected, start_notifications, clientConnected]

/-- Witness for C3: the connect-error path at a concrete environment and a
fresh session. -/
theorem C3_connect_failure_modes_witness :
    (ensure_connected
        { deviceFound := true, connectRaises := true,
          startNotifyRaises := false, initialReadRaises := false }
        freshSession).1 = false
    ∧ (ensure_connected
        { deviceFound := true, connectRaises := true,
          startNotifyRaises := false, initialReadRaises := false }
        freshSession).2.client = none :=
  (C3_connect_failure_modes
      { deviceFound := true, connectRaises := true,
        startNotifyRaises := false, initialReadRaises := false }
      freshSession (by decide) (by decide)).2.1 (by decide) (by decide)

/-- C8: regardless of the session's prior state and of any exception raised
by `stop_notify` or the transport disconnect (both caught), `disconnect`
clears `_client`, `_volume_level` and `_input_code`, leaves `is_connected`
false, and a second `disconnect` immediately afterwards (with any
exception outcomes) produces exactly the same state: `disconnect` is
idempotent and never propagates an error. -/
theorem C8_disconnect_idempotent (env env2 : DisconnectEnv) (s : Session) :
    (disconnect env s).client = none
    ∧ (disconnect env s).volume_level = none
    ∧ (disconnect env s).input_code = none
    ∧ clientConnected (disconnect env s) = false
    ∧ disconnect env2 (disconnect env s) = disconnect env s :=
  ⟨rfl, rfl, rfl, rfl, rfl⟩

/-- C9: every Home Assistant volume level in `[0, 1]` is mapped by
`async_set_volume_level` to a device volume in `[1, 31]`, so `set_volume`
never takes its out-of-range rejection branch for such inputs (it always
proceeds to the connection attempt); in particular level 0 maps to device
volume 1. -/
theorem C9_ha_volume_in_range :
    (∀ q : ℚ, 0 ≤ q → q ≤ 1 →
      1 ≤ amp_volume q ∧ amp_volume q ≤ 31
      ∧ ∀ (cenv : ConnectEnv) (w : Bool) (s : Session),
          (set_volume (amp_volume q) cenv w s).connectAttempted = true)
    ∧ amp_volume 0 = 1 := by
  have hr : ∀ q : ℚ, 1 ≤ amp_volume q ∧ amp_volume q ≤ 31 := by
    intro q
    exact ⟨le_max_left 1 _, max_le (by norm_num) (min_le_left _ _)⟩
  constructor
  · intro q hq0 hq1
    refine ⟨(hr q).1, (hr q).2, ?_⟩
    intro cenv w s
    simp only [set_volume]
    rw [if_neg (not_not_intro (hr q))]
    split_ifs <;> rfl
  · have : round ((0 : ℚ) * 31) = 0 := by norm_num
    simp [amp_volume, this]

/-- Witness for C9 at Home Assistant volume level `1/2`. -/
theorem C9_ha_volume_in_range_witness :
    1 ≤ amp_volume (1 / 2) ∧ amp_volume (1 / 2) ≤ 31 :=
  ⟨(C9_ha_volume_in_range.1 (1 / 2) (by norm_num) (by norm_num)).1,
   (C9_ha_volume_in_range.1 (1 / 2) (by norm_num) (by norm_num)).2.1⟩

/-- C10: `get_volume` (and likewise `get_input`) returns `None` exactly when
the connection cannot be ensured or the stored field was never populated;
when the connection is up, the status-triggering read may raise but the
exception is caught internally and the stored (possibly stale) value is
returned unchanged. -/
theorem C10_get_returns_stored_value (cenv : ConnectEnv) (rr : Bool) (s : Session) :
    ((ensure_connected cenv s).1 = false →
        (get_volume cenv rr s).1 = none ∧ (get_input cenv rr s).1 = none)
    ∧ ((ensure_connected cenv s).1 = true →
        (get_volume cenv rr s).1 = s.volume_level ∧ (get_input cenv rr s).1 = s.input_code)
    ∧ ((get_volume cenv rr s).1 = none →
        (ensure_connected cenv s).1 = false ∨ s.volume_level = none)
    ∧ ((get_input cenv rr s).1 = none →
        (ensure_connected cenv s).1 = false ∨ s.input_code = none) := by
  have hp := ensure_connected_preserves_snapshot cenv s
  refine ⟨?_, ?_, ?_, ?_⟩
  · intro h
    constructor <;> simp [get_volume, get_input, h]
  · intro h
    constructor <;> simp [get_volume, get_input, h, hp.1, hp.2]
  · intro h
    by_cases hc : (ensure_connected cenv s).1 = true
    · right
      rw [← hp.1]
      simpa [get_volume, hc] using h
    · left
      simpa using hc
  · intro h
    by_cases hc : (ensure_connected cenv s).1 = true
    · right
      rw [← hp.2]
      simpa [get_input, hc] using h
    · left
      simpa using hc

/-- Witness for C10: a connected session with stored volume 7 and stored
input `0x14`, where the status-triggering read raises: both getters still
return the stored values. -/
theorem C10_get_returns_stored_value_witness :
    (get_volume goodConnectEnv true connectedSession).1 = some 7
    ∧ (get_input goodConnectEnv true connectedSession).1 = some 0x14 :=
  ⟨((C10_get_returns_stored_value goodConnectEnv true connectedSession).2.1 (by decide)).1,
   ((C10_get_returns_stored_value goodConnectEnv true connectedSession).2.1 (by decide)).2⟩

end Sinilink
